import Mathlib

/-!
Shallow embedding of the brick-verification script `src/stages/03_verify.py`.

Pure Python string manipulation is translated directly into Lean functions.
Every interaction with the outside world — the `biobricks assets` subprocess,
the `bb.assets(name).<key>` attribute lookup, the parquet / sqlite / rdflib
libraries, `os.path.getsize`, and the two files the script touches — is an
oracle field of `PyEnv`.  A library call that may raise a Python exception is
modelled as returning `Except String _`, where `Except.error msg` is the
exception carrying text `msg`.
-/

namespace BrickCheck

/-- Python whitespace characters recognised by `str.strip()`. -/
def isPySpace (c : Char) : Bool :=
  c == ' ' || c == '\t' || c == '\n' || c == '\r' || c == '\x0b' || c == '\x0c'

/-- Python `s.strip()`: drop whitespace from both ends. -/
def pyStrip (s : String) : String :=
  ⟨((s.data.dropWhile isPySpace).reverse.dropWhile isPySpace).reverse⟩

/-- Python `s.lower()` (ASCII case folding, which covers every suffix the script tests). -/
def pyLower (s : String) : String :=
  ⟨s.data.map Char.toLower⟩

/-- Python `s.endswith(t)`. -/
def pyEndsWith (s t : String) : Bool :=
  List.isSuffixOf t.data s.data

/-- Python `s.startswith(t)`. -/
def pyStartsWith (s t : String) : Bool :=
  List.isPrefixOf t.data s.data

/-- Helper for `pySplitChar`: split a character list at a separator,
carrying the reversed current chunk. -/
def pySplitCharAux (sep : Char) : List Char → List Char → List String
  | [], acc => [⟨acc.reverse⟩]
  | c :: cs, acc =>
    if c == sep then ⟨acc.reverse⟩ :: pySplitCharAux sep cs []
    else pySplitCharAux sep cs (c :: acc)

/-- Python `s.split(sep)` for a single-character separator (the script only
splits on a colon and on a newline). -/
def pySplitChar (sep : Char) (s : String) : List String :=
  pySplitCharAux sep s.data []

/-- Whether an `Except` value is a normal (non-raising) result. -/
def isOkE {ε α : Type} : Except ε α → Bool
  | Except.ok _ => true
  | Except.error _ => false

/-- Oracle for every effect of the script: subprocess outcomes, the
`biobricks` asset map, the format libraries, file sizes, and the two files
(`list/bricks.txt` read as lines, `fail/failures.txt` initial content). -/
structure PyEnv where
  runCmd : List String → Bool × String
  assetAttr : String → String → Except String String
  parquetFragments : String → Except String (List Nat)
  sqliteConnect : String → Except String Unit
  sqliteMaster : String → Except String (List String)
  sqliteCount : String → String → Except String Nat
  hdtParse : String → Except String Nat
  getsize : String → Except String Nat
  catalogLines : Option (List String)
  failLogInit : Option (List String)

/-- `run_command`: success yields the stripped stdout, a caught
`CalledProcessError` / `TimeoutExpired` yields the error message. -/
def run_command (env : PyEnv) (cmd : List String) : Bool × String :=
  let r := env.runCmd cmd
  if r.1 then (true, pyStrip r.2) else (false, r.2)

/-- The line-collecting loop of `get_brick_assets`: strip each line, keep the
non-blank ones, preserving order. -/
def collectAssetLines : List String → List String
  | [] => []
  | l :: ls =>
    if pyStrip l != "" then pyStrip l :: collectAssetLines ls
    else collectAssetLines ls

/-- `get_brick_assets`: run `biobricks assets <name>`; on failure return
`(False, [])`, otherwise parse the output lines and report whether at least
one asset reference was produced. -/
def get_brick_assets (env : PyEnv) (brick_name : String) : Bool × List String :=
  let sr := run_command env ["biobricks", "assets", brick_name]
  if sr.1 = false then (false, [])
  else
    let asset_files := collectAssetLines (pySplitChar '\n' sr.2)
    (decide (0 < asset_files.length), asset_files)

/-- `verify_parquet_file`: sum fragment row counts; any exception from the
parquet library is caught and converted into a failure message. -/
def verify_parquet_file (env : PyEnv) (file_path : String) : Bool × String :=
  match env.parquetFragments file_path with
  | Except.error e => (false, "Failed to load parquet file: " ++ e)
  | Except.ok frags =>
    let row_count := frags.foldl (· + ·) 0
    if row_count > 0 then (true, s!"Parquet file has {row_count} rows")
    else (false, s!"Parquet file is empty ({row_count} rows)")

/-- The row-counting loop of `verify_sqlite_file`: sum `COUNT(*)` over the
tables in order, aborting at the first query that raises. -/
def sqliteCountTables (env : PyEnv) (file_path : String) : List String → Except String Nat
  | [] => Except.ok 0
  | t :: ts =>
    match env.sqliteCount file_path t with
    | Except.error e => Except.error e
    | Except.ok n =>
      match sqliteCountTables env file_path ts with
      | Except.error e => Except.error e
      | Except.ok m => Except.ok (n + m)

/-- Result of the instrumented sqlite verifier: the returned pair plus
whether the connection was opened and whether `conn.close()` ran. -/
structure SqliteRun where
  result : Bool × String
  opened : Bool
  closed : Bool

/-- `verify_sqlite_file`, instrumented with the open/close state of the
database handle.  The `except Exception` handler returns a failure message
without closing the handle, exactly as the source does. -/
def verify_sqlite_file (env : PyEnv) (file_path : String) : SqliteRun :=
  match env.sqliteConnect file_path with
  | Except.error e => ⟨(false, "Failed to access SQLite file: " ++ e), false, false⟩
  | Except.ok _ =>
    match env.sqliteMaster file_path with
    | Except.error e => ⟨(false, "Failed to access SQLite file: " ++ e), true, false⟩
    | Except.ok [] => ⟨(false, "SQLite file has no tables"), true, true⟩
    | Except.ok (t :: ts) =>
      let table_count := (t :: ts).length
      match sqliteCountTables env file_path (t :: ts) with
      | Except.error e => ⟨(false, "Failed to access SQLite file: " ++ e), true, false⟩
      | Except.ok total_rows =>
        if total_rows > 0 then
          ⟨(true, s!"SQLite file has {table_count} tables with {total_rows} total rows"), true, true⟩
        else
          ⟨(false, s!"SQLite file has {table_count} tables but 0 rows"), true, true⟩

/-- `verify_hdt_file`: parse the file as an RDF graph and count triples; any
parse exception is caught. -/
def verify_hdt_file (env : PyEnv) (file_path : String) : Bool × String :=
  match env.hdtParse file_path with
  | Except.error e => (false, "Failed to load HDT file: " ++ e)
  | Except.ok triple_count =>
    if triple_count > 0 then (true, s!"HDT file has {triple_count} triples")
    else (false, "HDT file is empty (0 triples)")

/-- The fallback branch of `verify_asset_file`: existence/size check on the
original reference, with any `os.path.getsize` error caught. -/
def genericSizeCheck (env : PyEnv) (file_path : String) : Bool × String :=
  match env.getsize file_path with
  | Except.error e => (false, "Failed to check file: " ++ e)
  | Except.ok n =>
    if n > 0 then (true, s!"File exists and has size {n} bytes")
    else (false, "File is empty (0 bytes)")

/-- `verify_asset_file`.  The attribute lookup
`getattr(bb.assets(brick_name), brick_file)` sits outside every
`try` block of the source, so its exception propagates: the function returns
`Except.error` in that case.  Dispatch tests suffixes of the lowered
*original* reference; the three format checkers receive the resolved path,
the fallback receives the original reference. -/
def verify_asset_file (env : PyEnv) (file_path brick_name : String) :
    Except String (Bool × String) :=
  match env.assetAttr brick_name ((pySplitChar ':' file_path).headD "") with
  | Except.error e => Except.error e
  | Except.ok brick_path =>
    if pyEndsWith (pyLower file_path) ".parquet" then
      Except.ok (verify_parquet_file env brick_path)
    else if pyEndsWith (pyLower file_path) ".sqlite" ||
        pyEndsWith (pyLower file_path) ".sqlite3" ||
        pyEndsWith (pyLower file_path) ".db" then
      Except.ok (verify_sqlite_file env brick_path).result
    else if pyEndsWith (pyLower file_path) ".hdt" then
      Except.ok (verify_hdt_file env brick_path)
    else
      Except.ok (genericSizeCheck env file_path)

/-- The four format kinds the dispatch in `verify_asset_file` distinguishes. -/
inductive FormatKind
  | columnar
  | relational
  | tripleStore
  | generic
deriving DecidableEq

/-- The classification performed by the suffix tests of `verify_asset_file`,
factored out as a function of the asset reference string. -/
def classify (s : String) : FormatKind :=
  if pyEndsWith (pyLower s) ".parquet" then FormatKind.columnar
  else if pyEndsWith (pyLower s) ".sqlite" ||
      pyEndsWith (pyLower s) ".sqlite3" ||
      pyEndsWith (pyLower s) ".db" then FormatKind.relational
  else if pyEndsWith (pyLower s) ".hdt" then FormatKind.tripleStore
  else FormatKind.generic

/-- Modelled from the spec: the ordered suffix table of section 4.2 —
columnar first, then the three embedded-relational-DB suffixes, then the
compressed-triple-store suffix. -/
def suffixTable : List (String × FormatKind) :=
  [(".parquet", FormatKind.columnar),
   (".sqlite", FormatKind.relational),
   (".sqlite3", FormatKind.relational),
   (".db", FormatKind.relational),
   (".hdt", FormatKind.tripleStore)]

/-- Modelled from the spec: first case-insensitive suffix match in the fixed
precedence order wins; no match means the generic fallback kind. -/
def firstMatch (s : String) : List (String × FormatKind) → FormatKind
  | [] => FormatKind.generic
  | p :: rest =>
    if pyEndsWith (pyLower s) p.1 then p.2 else firstMatch s rest

/-- Modelled from the spec: dispatch by first match in the precedence table. -/
def classifySpec (s : String) : FormatKind :=
  firstMatch s suffixTable

/-- Which checker each kind invokes, and which argument it receives: the
resolved path for the three format kinds, the original reference for the
generic fallback. -/
def dispatchByKind (env : PyEnv) : FormatKind → String → String → Bool × String
  | FormatKind.columnar, path, _ => verify_parquet_file env path
  | FormatKind.relational, path, _ => (verify_sqlite_file env path).result
  | FormatKind.tripleStore, path, _ => verify_hdt_file env path
  | FormatKind.generic, _, orig => genericSizeCheck env orig

/-- The per-asset loop of `verify_brick`.  Returns the boolean outcome, the
brick names appended to the failure log by `record_failure`, and the list of
asset references actually examined; `Except.error` is an uncaught exception
from `verify_asset_file`. -/
def verifyAssetsLoop (env : PyEnv) (brick_name : String) :
    List String → Except String (Bool × List String × List String)
  | [] => Except.ok (true, [], [])
  | a :: rest =>
    match verify_asset_file env a brick_name with
    | Except.error e => Except.error e
    | Except.ok (success, _message) =>
      if success then
        match verifyAssetsLoop env brick_name rest with
        | Except.error e => Except.error e
        | Except.ok (res, recs, exam) => Except.ok (res, recs, a :: exam)
      else
        Except.ok (false, [brick_name], [a])

/-- `verify_brick`: no assets means one failure record and `False`;
otherwise run the per-asset loop. -/
def verify_brick (env : PyEnv) (brick_name : String) :
    Except String (Bool × List String × List String) :=
  if (get_brick_assets env brick_name).1 = false then
    Except.ok (false, [brick_name], [])
  else
    verifyAssetsLoop env brick_name (get_brick_assets env brick_name).2

/-- The catalog-parsing comprehension of `main`:
`[line.strip() for line in f if line.strip() and not line.startswith('#')]`. -/
def parseCatalog : List String → List String
  | [] => []
  | l :: ls =>
    if (pyStrip l != "") && !(pyStartsWith l "#") then
      pyStrip l :: parseCatalog ls
    else parseCatalog ls

/-- Accumulated state of the driver loop over the bricks: counts, failure-log
records in order, and the message of an uncaught exception if one aborted the
loop. -/
structure LoopOut where
  successes : Nat
  failures : Nat
  records : List String
  crash : Option String

/-- The driver loop of `main` over the parsed brick names. -/
def mainLoop (env : PyEnv) : List String → LoopOut
  | [] => ⟨0, 0, [], none⟩
  | b :: rest =>
    match verify_brick env b with
    | Except.error e => ⟨0, 0, [], some e⟩
    | Except.ok (res, recs, _exam) =>
      let out := mainLoop env rest
      if res then ⟨out.successes + 1, out.failures, recs ++ out.records, out.crash⟩
      else ⟨out.successes, out.failures + 1, recs ++ out.records, out.crash⟩

/-- How the process ended: an explicit exit status, or an uncaught exception. -/
inductive RunTermination
  | exited (code : Nat)
  | uncaught (msg : String)
deriving DecidableEq

/-- Whether the run terminated through normal exit rather than an uncaught
exception. -/
def RunTermination.isExit : RunTermination → Bool
  | RunTermination.exited _ => true
  | RunTermination.uncaught _ => false

/-- Observable outcome of one run of `main`: termination mode, the two
counters, how many bricks were fully processed, and the final content of
`fail/failures.txt` (`none` when the file does not exist). -/
structure RunResult where
  term : RunTermination
  successes : Nat
  failures : Nat
  processed : Nat
  failLog : Option (List String)

/-- `main`: missing catalog exits 1 before touching the failure log;
otherwise the pre-existing log is removed, the catalog is parsed, the loop
runs, and the exit status is 1 exactly when the failure count is positive. -/
def mainRun (env : PyEnv) : RunResult :=
  match env.catalogLines with
  | none => ⟨RunTermination.exited 1, 0, 0, 0, env.failLogInit⟩
  | some lines =>
    let brick_names := parseCatalog lines
    let out := mainLoop env brick_names
    let log := if out.records = [] then none else some out.records
    match out.crash with
    | some e => ⟨RunTermination.uncaught e, out.successes, out.failures,
        out.successes + out.failures, log⟩
    | none => ⟨RunTermination.exited (if out.failures > 0 then 1 else 0),
        out.successes, out.failures, brick_names.length, log⟩

/-- The process exit status determined by a termination: an explicit
`sys.exit` code, or 1 for a run killed by an uncaught exception (the Python
interpreter exits with status 1 after printing the traceback). -/
def exitStatus : RunTermination → Nat
  | RunTermination.exited c => c
  | RunTermination.uncaught _ => 1

/-- Environment of a fully successful run: one brick, one parquet asset with
rows. -/
def envOk : PyEnv where
  runCmd := fun _ => (true, "data.parquet")
  assetAttr := fun _ _ => Except.ok "/resolved/data.parquet"
  parquetFragments := fun _ => Except.ok [5]
  sqliteConnect := fun _ => Except.ok ()
  sqliteMaster := fun _ => Except.ok ["t"]
  sqliteCount := fun _ _ => Except.ok 3
  hdtParse := fun _ => Except.ok 7
  getsize := fun _ => Except.ok 10
  catalogLines := some ["alpha"]
  failLogInit := none

/-- Environment where the `bb.assets` attribute lookup raises. -/
def envC1 : PyEnv where
  runCmd := fun _ => (true, "data.parquet")
  assetAttr := fun _ _ => Except.error "AttributeError"
  parquetFragments := fun _ => Except.ok [5]
  sqliteConnect := fun _ => Except.ok ()
  sqliteMaster := fun _ => Except.ok ["t"]
  sqliteCount := fun _ _ => Except.ok 3
  hdtParse := fun _ => Except.ok 7
  getsize := fun _ => Except.ok 10
  catalogLines := some ["alpha"]
  failLogInit := none

/-- Environment where the sqlite row-count query raises after the handle was
opened. -/
def envC3 : PyEnv where
  runCmd := fun _ => (true, "data.db")
  assetAttr := fun _ _ => Except.ok "/resolved/data.db"
  parquetFragments := fun _ => Except.ok [5]
  sqliteConnect := fun _ => Except.ok ()
  sqliteMaster := fun _ => Except.ok ["t1"]
  sqliteCount := fun _ _ => Except.error "database disk image is malformed"
  hdtParse := fun _ => Except.ok 7
  getsize := fun _ => Except.ok 10
  catalogLines := some ["alpha"]
  failLogInit := none

/-- Environment whose catalog lists the same failing brick twice; the asset
lookup command fails for every brick. -/
def envDup : PyEnv where
  runCmd := fun _ => (false, "lookup failed")
  assetAttr := fun _ _ => Except.ok "/resolved"
  parquetFragments := fun _ => Except.ok [5]
  sqliteConnect := fun _ => Except.ok ()
  sqliteMaster := fun _ => Except.ok ["t"]
  sqliteCount := fun _ _ => Except.ok 3
  hdtParse := fun _ => Except.ok 7
  getsize := fun _ => Except.ok 10
  catalogLines := some ["dup", "dup"]
  failLogInit := none

/-- Environment with a missing catalog and a stale failure log left over from
an earlier run. -/
def envStale : PyEnv where
  runCmd := fun _ => (true, "data.parquet")
  assetAttr := fun _ _ => Except.ok "/resolved/data.parquet"
  parquetFragments := fun _ => Except.ok [5]
  sqliteConnect := fun _ => Except.ok ()
  sqliteMaster := fun _ => Except.ok ["t"]
  sqliteCount := fun _ _ => Except.ok 3
  hdtParse := fun _ => Except.ok 7
  getsize := fun _ => Except.ok 10
  catalogLines := none
  failLogInit := some ["oldbrick"]

/-- Environment with a missing catalog and no prior failure log. -/
def envMissing : PyEnv where
  runCmd := fun _ => (true, "data.parquet")
  assetAttr := fun _ _ => Except.ok "/resolved/data.parquet"
  parquetFragments := fun _ => Except.ok [5]
  sqliteConnect := fun _ => Except.ok ()
  sqliteMaster := fun _ => Except.ok ["t"]
  sqliteCount := fun _ _ => Except.ok 3
  hdtParse := fun _ => Except.ok 7
  getsize := fun _ => Except.ok 10
  catalogLines := none
  failLogInit := none

/-- Environment with one brick having two sqlite assets whose first asset
fails (the database has no tables). -/
def envFailFirst : PyEnv where
  runCmd := fun _ => (true, "a.db\nb.db")
  assetAttr := fun _ _ => Except.ok "/resolved/a.db"
  parquetFragments := fun _ => Except.ok [5]
  sqliteConnect := fun _ => Except.ok ()
  sqliteMaster := fun _ => Except.ok []
  sqliteCount := fun _ _ => Except.ok 3
  hdtParse := fun _ => Except.ok 7
  getsize := fun _ => Except.ok 10
  catalogLines := some ["bw"]
  failLogInit := none

/-- The line-collecting loop keeps exactly the stripped lines that are
non-blank, in order. -/
theorem collectAssetLines_eq (ls : List String) :
    collectAssetLines ls = (ls.map pyStrip).filter (fun l => l != "") := by
  induction ls with
  | nil => rfl
  | cons l ls ih =>
    simp only [collectAssetLines, List.map_cons, List.filter_cons]
    by_cases h : pyStrip l != "" <;> simp [h, ih]

/-- Claim C1 (amended): an exception escapes `verify_asset_file` exactly when
the `bb.assets` attribute lookup that resolves the asset reference raises;
every error inside the four checkers themselves is absorbed into a
`(false, message)` result. -/
theorem c1_amended (env : PyEnv) (fp bn e : String) :
    verify_asset_file env fp bn = Except.error e ↔
      env.assetAttr bn ((pySplitChar (':') fp).headD "") = Except.error e := by
  unfold verify_asset_file
  cases h : env.assetAttr bn ((pySplitChar (':') fp).headD "") with
  | error e2 => simp
  | ok p =>
    simp only
    constructor
    · intro hx
      split at hx
      · simp_all
      · split at hx
        · simp_all
        · split at hx <;> simp_all
    · intro hx
      simp_all

/-- Claim C1 counterexample: with an environment whose asset-attribute lookup
raises, verifying a single asset lets the exception escape instead of
producing a `(false, message)` result. -/
theorem c1_counterexample :
    verify_asset_file envC1 "data.parquet" "alpha" = Except.error "AttributeError" := rfl

/-- Claim C3 (amended): the database handle is closed on the success,
zero-tables and zero-rows paths, but not when an exception is raised after
the handle was opened: `closed` holds exactly when the connection, the table
enumeration, and (for a non-empty table list) every row-count query succeed. -/
theorem c3_amended (env : PyEnv) (p : String) :
    (verify_sqlite_file env p).closed = true ↔
      (isOkE (env.sqliteConnect p) = true ∧
        ∃ ts, env.sqliteMaster p = Except.ok ts ∧
          (ts = [] ∨ isOkE (sqliteCountTables env p ts) = true)) := by
  unfold verify_sqlite_file
  cases hc : env.sqliteConnect p with
  | error e => simp [isOkE]
  | ok u =>
    cases hm : env.sqliteMaster p with
    | error e => simp [isOkE]
    | ok ts =>
      cases ts with
      | nil => simp [isOkE]
      | cons t ts2 =>
        cases hcount : sqliteCountTables env p (t :: ts2) with
        | error e => simp [isOkE, hcount]
        | ok n =>
          by_cases hn : n > 0 <;> simp [isOkE, hcount, hn]

/-- Claim C3 counterexample: a row-count query that raises after the handle
was opened leaves the handle open — the exception path does not close it. -/
theorem c3_counterexample :
    (verify_sqlite_file envC3 "/resolved/data.db").opened = true ∧
    (verify_sqlite_file envC3 "/resolved/data.db").closed = false := ⟨rfl, rfl⟩

/-- Claim C5: the run driver processes exactly the catalog lines that are
non-empty after trimming and do not start with a hash, each trimmed. -/
theorem c5_catalog_lines (lines : List String) :
    parseCatalog lines =
      (lines.filter (fun l => (pyStrip l != "") && !(pyStartsWith l "#"))).map pyStrip := by
  induction lines with
  | nil => rfl
  | cons l ls ih =>
    simp only [parseCatalog, List.filter_cons]
    by_cases h : (pyStrip l != "") && !(pyStartsWith l "#") <;> simp [h, ih]

/-- Claim C7: the asset resolver returns `(false, [])` on a lookup failure;
its success flag is true exactly when at least one asset reference was
produced; and on a successful lookup the references are the non-blank
stripped lines of the stripped output, in order. -/
theorem c7_resolver (env : PyEnv) (b : String) :
    ((env.runCmd ["biobricks", "assets", b]).1 = false →
      get_brick_assets env b = (false, [])) ∧
    ((get_brick_assets env b).1 = true ↔ (get_brick_assets env b).2 ≠ []) ∧
    ((env.runCmd ["biobricks", "assets", b]).1 = true →
      (get_brick_assets env b).2 =
        ((pySplitChar '\n' (pyStrip (env.runCmd ["biobricks", "assets", b]).2)).map
          pyStrip).filter (fun l => l != "")) := by
  refine ⟨?_, ?_, ?_⟩
  · intro h
    simp [get_brick_assets, run_command, h]
  · unfold get_brick_assets run_command
    cases hr : (env.runCmd ["biobricks", "assets", b]).1 <;> simp [hr]
    exact List.length_pos
  · intro h
    simp [get_brick_assets, run_command, h, collectAssetLines_eq]

/-- Claim C7 witness: on a concrete successful lookup the resolver returns
the single stripped asset line. -/
theorem c7_resolver_witness :
    (envOk.runCmd ["biobricks", "assets", "alpha"]).1 = true ∧
    (get_brick_assets envOk "alpha").2 =
      ((pySplitChar '\n' (pyStrip (envOk.runCmd ["biobricks", "assets", "alpha"]).2)).map
        pyStrip).filter (fun l => l != "") :=
  ⟨rfl, (c7_resolver envOk "alpha").2.2 rfl⟩

/-- Claim C2: the checker is chosen by suffix tests on the lowered original
asset reference; the columnar, relational and triple-store checkers receive
the resolved on-disk path, while the generic fallback receives the original
unresolved reference. -/
theorem c2_dispatch_args (env : PyEnv) (fp bn path : String)
    (h : env.assetAttr bn ((pySplitChar (':') fp).headD "") = Except.ok path) :
    (pyEndsWith (pyLower fp) ".parquet" = true →
      verify_asset_file env fp bn = Except.ok (verify_parquet_file env path)) ∧
    (pyEndsWith (pyLower fp) ".parquet" = false →
      (pyEndsWith (pyLower fp) ".sqlite" || pyEndsWith (pyLower fp) ".sqlite3" ||
        pyEndsWith (pyLower fp) ".db") = true →
      verify_asset_file env fp bn = Except.ok (verify_sqlite_file env path).result) ∧
    (pyEndsWith (pyLower fp) ".parquet" = false →
      (pyEndsWith (pyLower fp) ".sqlite" || pyEndsWith (pyLower fp) ".sqlite3" ||
        pyEndsWith (pyLower fp) ".db") = false →
      pyEndsWith (pyLower fp) ".hdt" = true →
      verify_asset_file env fp bn = Except.ok (verify_hdt_file env path)) ∧
    (pyEndsWith (pyLower fp) ".parquet" = false →
      (pyEndsWith (pyLower fp) ".sqlite" || pyEndsWith (pyLower fp) ".sqlite3" ||
        pyEndsWith (pyLower fp) ".db") = false →
      pyEndsWith (pyLower fp) ".hdt" = false →
      verify_asset_file env fp bn = Except.ok (genericSizeCheck env fp)) := by
  refine ⟨?_, ?_, ?_, ?_⟩ <;> intros <;> simp_all [verify_asset_file]

/-- Claim C2 witness: on a concrete resolvable parquet reference the
dispatch hands the resolved path to the columnar checker. -/
theorem c2_dispatch_args_witness :
    envOk.assetAttr "alpha" ((pySplitChar (':') "data.parquet").headD "") =
      Except.ok "/resolved/data.parquet" ∧
    verify_asset_file envOk "data.parquet" "alpha" =
      Except.ok (verify_parquet_file envOk "/resolved/data.parquet") :=
  ⟨rfl,
    (c2_dispatch_args envOk "data.parquet" "alpha" "/resolved/data.parquet" rfl).1 rfl⟩

/-- Structure of a completed per-asset loop: a true outcome examined every
asset and recorded nothing; a false outcome recorded the brick once and
examined exactly the assets up to and including the first failing one. -/
theorem verifyAssetsLoop_spec (env : PyEnv) (b : String) :
    ∀ (assets : List String) (res : Bool) (recs exam : List String),
      verifyAssetsLoop env b assets = Except.ok (res, recs, exam) →
        (res = true → recs = [] ∧ exam = assets) ∧
        (res = false → recs = [b] ∧
          ∃ pre a, exam = pre ++ [a] ∧
            (∃ post, assets = exam ++ post) ∧
            (∀ x ∈ pre, ∃ m, verify_asset_file env x b = Except.ok (true, m)) ∧
            (∃ m, verify_asset_file env a b = Except.ok (false, m))) := by
  intro assets
  induction assets with
  | nil =>
    intro res recs exam h
    simp only [verifyAssetsLoop, Except.ok.injEq, Prod.mk.injEq] at h
    obtain ⟨h1, h2, h3⟩ := h
    subst_vars
    exact ⟨fun _ => ⟨rfl, rfl⟩, fun hf => by simp at hf⟩
  | cons a rest ih =>
    intro res recs exam h
    unfold verifyAssetsLoop at h
    cases hv : verify_asset_file env a b with
    | error e => simp [hv] at h
    | ok pr =>
      obtain ⟨success, msg⟩ := pr
      cases success with
      | false =>
        simp [hv] at h
        obtain ⟨h1, h2, h3⟩ := h
        subst_vars
        refine ⟨by simp, fun _ => ⟨rfl, [], a, by simp, ⟨rest, rfl⟩, by simp, msg, hv⟩⟩
      | true =>
        simp only [hv] at h
        cases hl : verifyAssetsLoop env b rest with
        | error e => simp [hl] at h
        | ok tr =>
          obtain ⟨res2, recs2, exam2⟩ := tr
          simp [hl] at h
          obtain ⟨h1, h2, h3⟩ := h
          subst_vars
          obtain ⟨ihT, ihF⟩ := ih res2 recs2 exam2 hl
          constructor
          · intro ht
            obtain ⟨hr, he⟩ := ihT ht
            exact ⟨hr, by rw [he]⟩
          · intro hf
            obtain ⟨hr, pre, a2, he, ⟨post, hpost⟩, hokpre, hfail⟩ := ihF hf
            refine ⟨hr, a :: pre, a2, by simp [he], ⟨post, by simp [hpost]⟩, ?_, hfail⟩
            intro x hx
            rcases List.mem_cons.mp hx with hxa | hxp
            · exact ⟨msg, hxa ▸ hv⟩
            · exact hokpre x hxp

/-- Claim C4 (amended): within one brick verification at most one failure
record is appended — none on success, exactly one (the brick name) on
failure — and on an asset failure the examined assets are precisely those up
to and including the first failing one; later assets are never checked. -/
theorem c4_amended (env : PyEnv) (b : String) (res : Bool) (recs exam : List String)
    (h : verify_brick env b = Except.ok (res, recs, exam)) :
    recs.length ≤ 1 ∧ (res = true → recs = []) ∧
    (res = false → recs = [b] ∧
      ((exam = [] ∧ (get_brick_assets env b).1 = false) ∨
       ∃ pre a, exam = pre ++ [a] ∧
         (∃ post, (get_brick_assets env b).2 = exam ++ post) ∧
         (∀ x ∈ pre, ∃ m, verify_asset_file env x b = Except.ok (true, m)) ∧
         (∃ m, verify_asset_file env a b = Except.ok (false, m)))) := by
  unfold verify_brick at h
  by_cases hga : (get_brick_assets env b).1 = false
  · simp [hga] at h
    obtain ⟨h1, h2, h3⟩ := h
    subst_vars
    exact ⟨by simp, by simp, fun _ => ⟨rfl, Or.inl ⟨rfl, hga⟩⟩⟩
  · simp [hga] at h
    obtain ⟨hT, hF⟩ := verifyAssetsLoop_spec env b _ res recs exam h
    refine ⟨?_, fun ht => (hT ht).1, fun hf => ?_⟩
    · cases res
      · simp [(hF rfl).1]
      · simp [(hT rfl).1]
    · obtain ⟨hr, pre, a, he, hpost, hok, hfailm⟩ := hF hf
      exact ⟨hr, Or.inr ⟨pre, a, he, hpost, hok, hfailm⟩⟩

/-- Claim C4 counterexample: a catalog listing the same failing brick name
twice records that brick twice in one run, so a brick is not recorded at
most once per run. -/
theorem c4_counterexample :
    (mainRun envDup).failLog = some ["dup", "dup"] ∧
    ¬ (((mainRun envDup).failLog.getD []).count "dup" ≤ 1) :=
  ⟨rfl, by decide⟩

/-- Claim C4 witness: a concrete brick whose first of two assets fails is
recorded exactly once, with only the first asset examined. -/
theorem c4_amended_witness :
    verify_brick envFailFirst "bw" = Except.ok (false, ["bw"], ["a.db"]) ∧
    (["bw"] : List String).length ≤ 1 :=
  ⟨rfl, (c4_amended envFailFirst "bw" false ["bw"] ["a.db"] rfl).1⟩

/-- A driver loop that finished without an uncaught exception counted every
brick name exactly once. -/
theorem mainLoop_count (env : PyEnv) :
    ∀ names, (mainLoop env names).crash = none →
      (mainLoop env names).successes + (mainLoop env names).failures = names.length := by
  intro names
  induction names with
  | nil => intro _; rfl
  | cons b rest ih =>
    intro h
    unfold mainLoop at h ⊢
    cases hv : verify_brick env b with
    | error e => simp [hv] at h
    | ok tr =>
      obtain ⟨res, recs, exam⟩ := tr
      simp only [hv] at h ⊢
      cases res
      · simp at h ⊢
        have := ih h
        omega
      · simp at h ⊢
        have := ih h
        omega

/-- Claim C6 (amended): in a run over a present catalog that terminates
normally (no uncaught exception escapes a brick verification), each brick
name is counted exactly once and the success and failure counts sum to the
number of non-comment, non-blank catalog lines. -/
theorem c6_counts (env : PyEnv) (lines : List String)
    (h1 : env.catalogLines = some lines)
    (h2 : (mainRun env).term.isExit = true) :
    (mainRun env).successes + (mainRun env).failures = (parseCatalog lines).length := by
  simp only [mainRun, h1] at h2 ⊢
  cases hcr : (mainLoop env (parseCatalog lines)).crash with
  | some e => simp [hcr, RunTermination.isExit] at h2
  | none =>
    simp only [hcr] at h2 ⊢
    exact mainLoop_count env _ hcr

/-- Claim C6 witness: a concrete one-brick run sums its counts to the one
parsed catalog line. -/
theorem c6_counts_witness :
    envOk.catalogLines = some ["alpha"] ∧
    (mainRun envOk).term.isExit = true ∧
    (mainRun envOk).successes + (mainRun envOk).failures = (parseCatalog ["alpha"]).length :=
  ⟨rfl, rfl, c6_counts envOk ["alpha"] rfl rfl⟩

/-- Claim C6 counterexample: a present one-line catalog whose brick
verification is aborted by the uncaught resolution exception counts that
brick neither as success nor as failure, so the counts do not sum to the
number of parsed catalog lines. -/
theorem c6_counterexample :
    envC1.catalogLines = some ["alpha"] ∧
    ¬ ((mainRun envC1).successes + (mainRun envC1).failures =
        (parseCatalog ["alpha"]).length) :=
  ⟨rfl, by decide⟩

/-- Claim C8: the dispatch classification equals the spec's fixed-precedence
suffix table (columnar, then the three relational suffixes, then the
triple-store suffix, else generic), it is case-insensitive, and
`verify_asset_file` invokes exactly the checker of the classified kind with
the resolved path (original reference for the generic kind). -/
theorem c8_classification :
    (∀ s, classify s = classifySpec s) ∧
    (∀ s t, pyLower s = pyLower t → classify s = classify t) ∧
    (∀ env fp bn path, env.assetAttr bn ((pySplitChar (':') fp).headD "") = Except.ok path →
      verify_asset_file env fp bn =
        Except.ok (dispatchByKind env (classify fp) path fp)) := by
  refine ⟨?_, ?_, ?_⟩
  · intro s
    simp only [classify, classifySpec, suffixTable, firstMatch]
    cases h1 : pyEndsWith (pyLower s) ".parquet" <;>
      cases h2 : pyEndsWith (pyLower s) ".sqlite" <;>
        cases h3 : pyEndsWith (pyLower s) ".sqlite3" <;>
          cases h4 : pyEndsWith (pyLower s) ".db" <;>
            cases h5 : pyEndsWith (pyLower s) ".hdt" <;>
              simp [h1, h2, h3, h4, h5]
  · intro s t h
    simp only [classify]
    rw [h]
  · intro env fp bn path h
    simp only [verify_asset_file, classify, h]
    cases h1 : pyEndsWith (pyLower fp) ".parquet" <;>
      cases h2 : pyEndsWith (pyLower fp) ".sqlite" <;>
        cases h3 : pyEndsWith (pyLower fp) ".sqlite3" <;>
          cases h4 : pyEndsWith (pyLower fp) ".db" <;>
            cases h5 : pyEndsWith (pyLower fp) ".hdt" <;>
              simp [dispatchByKind, h1, h2, h3, h4, h5]

/-- Claim C8 witness: classification agrees with the spec table on a
concrete name, ignores case on a concrete pair, and drives the dispatch of a
concrete resolvable asset. -/
theorem c8_classification_witness :
    classify "x.sqlite3" = classifySpec "x.sqlite3" ∧
    classify "A.DB" = classify "a.db" ∧
    verify_asset_file envOk "data.parquet" "alpha" =
      Except.ok (dispatchByKind envOk (classify "data.parquet")
        "/resolved/data.parquet" "data.parquet") :=
  ⟨c8_classification.1 "x.sqlite3",
   c8_classification.2.1 "A.DB" "a.db" (by decide),
   c8_classification.2.2 envOk "data.parquet" "alpha" "/resolved/data.parquet" rfl⟩

/-- Claim C9 (amended): a missing catalog exits 1 with no bricks processed
and the failure log untouched; a run over a present catalog that terminates
normally (not through an uncaught exception) exits 0 exactly when the
failure count is zero. -/
theorem c9_exit_status (env : PyEnv) :
    (env.catalogLines = none →
      mainRun env = ⟨RunTermination.exited 1, 0, 0, 0, env.failLogInit⟩) ∧
    (∀ lines c, env.catalogLines = some lines →
      (mainRun env).term = RunTermination.exited c →
      (c = 0 ↔ (mainRun env).failures = 0)) := by
  constructor
  · intro h
    simp [mainRun, h]
  · intro lines c h1 h2
    simp only [mainRun, h1] at h2 ⊢
    cases hcr : (mainLoop env (parseCatalog lines)).crash with
    | some e => simp [hcr] at h2
    | none =>
      simp only [hcr] at h2 ⊢
      simp at h2 ⊢
      rw [← h2]
      by_cases hf : (mainLoop env (parseCatalog lines)).failures > 0
      · simp only [if_pos hf]
        constructor
        · intro hx; omega
        · intro hx; omega
      · simp only [if_neg hf]
        constructor
        · intro _; omega
        · intro _; trivial

/-- Claim C9 witness: a concrete run with a missing catalog exits 1 having
processed nothing. -/
theorem c9_exit_status_witness :
    envMissing.catalogLines = none ∧
    mainRun envMissing = ⟨RunTermination.exited 1, 0, 0, 0, envMissing.failLogInit⟩ :=
  ⟨rfl, (c9_exit_status envMissing).1 rfl⟩

/-- Claim C9 counterexample: a run whose brick verification is aborted by
the uncaught resolution exception ends with process exit status 1 while its
failure count is 0, so the exit status is not 0 iff the failure count is
zero. -/
theorem c9_counterexample :
    (mainRun envC1).term = RunTermination.uncaught "AttributeError" ∧
    exitStatus (mainRun envC1).term = 1 ∧
    (mainRun envC1).failures = 0 :=
  ⟨rfl, rfl, rfl⟩

/-- Each failed brick contributes exactly one record, so the record list of
the driver loop is as long as its failure count. -/
theorem verify_brick_records (env : PyEnv) (b : String) (res : Bool)
    (recs exam : List String)
    (h : verify_brick env b = Except.ok (res, recs, exam)) :
    recs = if res then [] else [b] := by
  unfold verify_brick at h
  by_cases hga : (get_brick_assets env b).1 = false
  · simp [hga] at h
    obtain ⟨h1, h2, h3⟩ := h
    subst_vars
    rfl
  · simp [hga] at h
    obtain ⟨hT, hF⟩ := verifyAssetsLoop_spec env b _ res recs exam h
    cases res
    · simp [(hF rfl).1]
    · simp [(hT rfl).1]

/-- The failure-log records of the driver loop number exactly its failures. -/
theorem mainLoop_records_length (env : PyEnv) :
    ∀ names, (mainLoop env names).records.length = (mainLoop env names).failures := by
  intro names
  induction names with
  | nil => rfl
  | cons b rest ih =>
    unfold mainLoop
    cases hv : verify_brick env b with
    | error e => simp
    | ok tr =>
      obtain ⟨res, recs, exam⟩ := tr
      have hr := verify_brick_records env b res recs exam hv
      cases res
      · simp at hr
        simp [hr, ih]
      · simp at hr
        simp [hr, ih]

/-- Claim C10 (amended): in a run over a present catalog in which no brick
fails, no failure log exists afterward — the pre-existing log is removed
after the catalog check and the log is only ever created by recording a
failure. -/
theorem c10_amended (env : PyEnv) (lines : List String)
    (h1 : env.catalogLines = some lines)
    (h2 : (mainRun env).failures = 0) :
    (mainRun env).failLog = none := by
  simp only [mainRun, h1] at h2 ⊢
  have hlen := mainLoop_records_length env (parseCatalog lines)
  cases hcr : (mainLoop env (parseCatalog lines)).crash with
  | some e =>
    simp only [hcr] at h2 ⊢
    simp at h2 ⊢
    rw [h2] at hlen
    simp [List.length_eq_zero.mp hlen]
  | none =>
    simp only [hcr] at h2 ⊢
    simp at h2 ⊢
    rw [h2] at hlen
    simp [List.length_eq_zero.mp hlen]

/-- Claim C10 counterexample: when the catalog is missing, the script exits
before deleting the stale failure log, so a run in which no brick fails
still leaves a failure log behind. -/
theorem c10_counterexample :
    (mainRun envStale).failures = 0 ∧
    (mainRun envStale).failLog = some ["oldbrick"] :=
  ⟨rfl, rfl⟩

/-- Claim C10 witness: a concrete fully successful run over a present
catalog leaves no failure log. -/
theorem c10_amended_witness :
    envOk.catalogLines = some ["alpha"] ∧
    (mainRun envOk).failures = 0 ∧
    (mainRun envOk).failLog = none :=
  ⟨rfl, rfl, c10_amended envOk ["alpha"] rfl rfl⟩

end BrickCheck
